import Mathlib

/-!
# Watson backend worker — verification of the spec against the source

Shallow embedding of the asynchronous job-processing subsystem of the
Watson personal-finance backend (Go sources under `background-worker/`,
`database/` and `plaid/`), together with theorems settling the frozen
claims about it.

Modelling conventions:
* Go `float64` money amounts are embedded as exact rationals (`ℚ`);
  the spec itself states the numeric properties "within floating-point
  tolerance", and the algorithms use only field operations.
* The SQL filter `date BETWEEN startDate AND endDate`, where both
  endpoints are derived from the same `monthYear` bucket
  (`GetTransactionsByCategory` and `GetTransactionsExcludingCategories`
  compute the identical range *first of month* .. *first of next month*),
  is embedded as an equality test on a transaction's month bucket.
* The JSONB operators on the `category` column are embedded over
  `List String`: `category @> jsonb([c])` is list membership of `c`,
  `category ?| cats` is non-empty overlap with `cats`.
-/

namespace Watson

/-- A row of the `transactions` table as read by the budget engine
(`database.Transaction`), reduced to the columns the engine uses:
owner, amount, the month bucket of its `date`, and the JSONB tag set
stored in `category`. -/
structure Transaction where
  transactionId : String
  userId : Nat
  amount : ℚ
  monthYear : Nat
  category : List String
  deriving Repr, DecidableEq

/-- SQL `category @> jsonb([c])`: the tag set contains the name `c`. -/
def categoryContains (tags : List String) (c : String) : Bool :=
  tags.contains c

/-- SQL `category ?| cats`: the tag set overlaps the name list `cats`. -/
def categoryOverlaps (tags : List String) (cats : List String) : Bool :=
  cats.any (fun c => tags.contains c)

/-- Embeds `database.GetTransactionsByCategory`: transactions of the user
in the month whose `category` JSONB contains the given name. -/
def GetTransactionsByCategory (txns : List Transaction) (userId : Nat)
    (category : String) (monthYear : Nat) : List Transaction :=
  txns.filter (fun t =>
    t.userId == userId && t.monthYear == monthYear &&
      categoryContains t.category category)

/-- Embeds `database.GetTransactionsExcludingCategories`: transactions of
the user in the month; when the exclusion list is non-empty the source
adds `AND NOT (category ?| categoriesToExclude)`, otherwise it runs the
query without any category condition. -/
def GetTransactionsExcludingCategories (txns : List Transaction) (userId : Nat)
    (categoriesToExclude : List String) (monthYear : Nat) : List Transaction :=
  if categoriesToExclude.length > 0 then
    txns.filter (fun t =>
      t.userId == userId && t.monthYear == monthYear &&
        !(categoryOverlaps t.category categoriesToExclude))
  else
    txns.filter (fun t => t.userId == userId && t.monthYear == monthYear)

/-- A row of `monthly_budget_spend_category`
(`database.MonthlyBudgetSpendCategory`). -/
structure MonthlyBudgetSpendCategory where
  id : String
  userId : Nat
  monthlySummaryId : Nat
  monthYear : Nat
  category : String
  budget : ℚ
  dailyAllowance : ℚ
  totalSpent : ℚ
  deriving Repr, DecidableEq

/-- Embeds `calculateSpendByCategory` from `background-worker/main.go`:
sum of the amounts returned by `GetTransactionsByCategory`. -/
def calculateSpendByCategory (txns : List Transaction)
    (category : MonthlyBudgetSpendCategory) : ℚ :=
  ((GetTransactionsByCategory txns category.userId category.category
      category.monthYear).map (·.amount)).sum

/-- Embeds `calculateSpendExcludingCategories` from
`background-worker/main.go`. -/
def calculateSpendExcludingCategories (txns : List Transaction)
    (category : MonthlyBudgetSpendCategory)
    (categoriesToExclude : List String) : ℚ :=
  ((GetTransactionsExcludingCategories txns category.userId
      categoriesToExclude category.monthYear).map (·.amount)).sum

/-- Embeds `calculateDailyLeftToSpend` from `background-worker/main.go`. -/
def calculateDailyLeftToSpend (spent : ℚ) (monthly_budget : ℚ)
    (daysIntoMonth : Nat) : ℚ :=
  let daily_budget := monthly_budget / 30
  let allowance_up_to_now := daily_budget * (daysIntoMonth : ℚ)
  allowance_up_to_now - spent

/-- Modelled from the spec: `database.GetCategoriesToExclude` is called by
`processDailyBalnce` but its definition is missing from the repository
snapshot (only the call site is present).  Per the spec it returns "all
tracked non-general category names for that user/month"; the commented-out
fallback at `background-worker/main.go:718-724` computes the same list
from the loaded budget rows. -/
def GetCategoriesToExclude (rows : List MonthlyBudgetSpendCategory)
    (userId monthYear : Nat) : List String :=
  (rows.filter (fun r =>
    r.userId == userId && r.monthYear == monthYear &&
      r.category != "general")).map (·.category)

/-- The per-category spend computed by the first pass of
`processDailyBalnce`: the `"general"` category sums the month's
transactions excluding the tracked names, any other category sums the
transactions matching it. -/
def spendForCategory (txns : List Transaction)
    (categoriesToExclude : List String)
    (category : MonthlyBudgetSpendCategory) : ℚ :=
  if category.category = "general" then
    calculateSpendExcludingCategories txns category categoriesToExclude
  else
    calculateSpendByCategory txns category

/-- The value `overallTotalSpent` as accumulated by the first pass of
`processDailyBalnce` and persisted as the summary's `total_spent`:
the sum of the per-category spends. -/
def overallTotalSpent (txns : List Transaction)
    (categoriesToExclude : List String)
    (rows : List MonthlyBudgetSpendCategory) : ℚ :=
  (rows.map (spendForCategory txns categoriesToExclude)).sum

/-- All of the user's transactions in the month (the claim's "all
transactions in that month"), i.e. the user/month filter shared by both
queries above. -/
def monthTransactions (txns : List Transaction) (userId monthYear : Nat) :
    List Transaction :=
  txns.filter (fun t => t.userId == userId && t.monthYear == monthYear)

/-- The local `CategoryWithAllowance` record built by the first pass of
`processDailyBalnce`. -/
structure CategoryWithAllowance where
  category : MonthlyBudgetSpendCategory
  dailyAllowance : ℚ
  isNegative : Bool
  deriving Repr, DecidableEq

/-- The running `totalNegativeAllowance` accumulated by the first pass: the sum of the
allowances of the categories flagged negative. -/
def totalNegativeAllowance (l : List CategoryWithAllowance) : ℚ :=
  ((l.filter (·.isNegative)).map (·.dailyAllowance)).sum

/-- The running `totalPositiveAllowance` accumulated by the first pass: the sum of the
allowances of the categories not flagged negative. -/
def totalPositiveAllowance (l : List CategoryWithAllowance) : ℚ :=
  ((l.filter (fun c => !c.isNegative)).map (·.dailyAllowance)).sum

/-- Embeds the first pass of `processDailyBalnce`: per category, compute
its spend, its initial daily allowance, and the negativity flag. -/
def firstPassCategories (txns : List Transaction)
    (categoriesToExclude : List String) (daysIntoMonth : Nat)
    (rows : List MonthlyBudgetSpendCategory) : List CategoryWithAllowance :=
  rows.map (fun category =>
    let totalSpent := spendForCategory txns categoriesToExclude category
    let dailyLeftToSpend :=
      calculateDailyLeftToSpend totalSpent category.budget daysIntoMonth
    { category := { category with totalSpent := totalSpent }
      dailyAllowance := dailyLeftToSpend
      isNegative := decide (dailyLeftToSpend < 0) })

/-- Embeds the second ("redistribution") pass of `processDailyBalnce`:
when there is a deficit and some positive allowance, and the positive
total covers the deficit, zero the negative categories and scale the
others by `1 - neededAmount / borrowableAmount`; otherwise leave the
list unchanged. -/
def redistributeAllowances (l : List CategoryWithAllowance) :
    List CategoryWithAllowance :=
  let totNeg := totalNegativeAllowance l
  let totPos := totalPositiveAllowance l
  if totNeg < 0 ∧ totPos > 0 then
    let borrowableAmount := totPos
    let neededAmount := -totNeg
    if borrowableAmount ≥ neededAmount then
      l.map (fun c =>
        if c.isNegative then { c with dailyAllowance := 0 }
        else
          { c with dailyAllowance :=
              c.dailyAllowance * (1 - neededAmount / borrowableAmount) })
    else
      l
  else
    l

/-! ### Helper lemmas on list sums -/

/-- Summing a function over a filtered list equals summing the
corresponding indicator over the whole list. -/
theorem sum_filter_map_eq_sum_ite {α : Type} (l : List α) (p : α → Bool)
    (f : α → ℚ) :
    ((l.filter p).map f).sum = (l.map (fun x => if p x then f x else 0)).sum := by
  induction l with
  | nil => rfl
  | cons a l ih => by_cases h : p a <;> simp [List.filter_cons, h, ih]

/-- Exchange of a double list sum. -/
theorem sum_map_swap {α β : Type} (rows : List α) (txns : List β)
    (w : α → β → ℚ) :
    (rows.map (fun r => (txns.map (w r)).sum)).sum
      = (txns.map (fun t => (rows.map (fun r => w r t)).sum)).sum := by
  induction rows with
  | nil => simp
  | cons r rows ih => simp [ih, List.sum_map_add]

/-- Summing a constant guarded by a predicate counts the matches. -/
theorem sum_map_ite_count (ex : List String) (q : String → Bool) (A : ℚ) :
    (ex.map (fun c => if q c then A else 0)).sum
      = A * ((ex.filter q).length : ℚ) := by
  induction ex with
  | nil => simp
  | cons c ex ih =>
    by_cases h : q c
    · simp [List.filter_cons, h, ih]
      ring
    · simp [List.filter_cons, h, ih]

/-- The tag set overlaps `ex` exactly when the list of matching names in
`ex` is non-empty. -/
theorem categoryOverlaps_iff_filter_pos (tags ex : List String) :
    categoryOverlaps tags ex = true
      ↔ 0 < (ex.filter (fun c => tags.contains c)).length := by
  simp [categoryOverlaps, List.any_eq_true, List.length_pos,
    List.filter_eq_nil_iff]

/-- A transaction matching at most one tracked name contributes its amount
exactly once to the residual term plus the per-name terms. -/
theorem per_transaction_weight (ex : List String) (tags : List String)
    (amt : ℚ)
    (hone : (ex.filter (fun c => tags.contains c)).length ≤ 1) :
    (if categoryOverlaps tags ex then 0 else amt)
      + (ex.map (fun c => if categoryContains tags c then amt else 0)).sum
      = amt := by
  have hcount := sum_map_ite_count ex (fun c => tags.contains c) amt
  rcases Nat.le_one_iff_eq_zero_or_eq_one.mp hone with h0 | h1
  · have hov : categoryOverlaps tags ex = false := by
      rw [← Bool.not_eq_true]
      intro h
      exact absurd ((categoryOverlaps_iff_filter_pos tags ex).mp h)
        (by omega)
    simp only [categoryContains] at hcount ⊢
    rw [hov, hcount, h0]
    norm_num
  · have hov : categoryOverlaps tags ex = true :=
      (categoryOverlaps_iff_filter_pos tags ex).mpr (by omega)
    simp only [categoryContains] at hcount ⊢
    rw [hov, hcount, h1]
    norm_num

/-- The exclusion query always coincides with filtering the month's
transactions by non-overlap (the empty-list branch of the source drops
the condition, which is vacuous there). -/
theorem getTransactionsExcluding_eq_filter (txns : List Transaction)
    (uid : Nat) (ex : List String) (my : Nat) :
    GetTransactionsExcludingCategories txns uid ex my
      = txns.filter (fun t =>
          t.userId == uid && t.monthYear == my &&
            !(categoryOverlaps t.category ex)) := by
  unfold GetTransactionsExcludingCategories
  by_cases h : ex.length > 0
  · simp [h]
  · have hnil : ex = [] := List.length_eq_zero.mp (by omega)
    subst hnil
    simp [categoryOverlaps]

/-- C1 (amended): with the budget rows consisting of one `"general"` row
plus the tracked rows of the user/month, the exclusion list computed for
the month is exactly the tracked non-general names, the `"general"`
category's spend is the residual — the sum of amounts of the month's
transactions whose category set contains none of the tracked names — and,
provided every transaction's category set contains at most one tracked
name, the sum of the per-category spends (the value persisted as the
summary's `total_spent`) equals the month's total transaction spend. -/
theorem category_spend_partition
    (txns : List Transaction) (uid my : Nat)
    (gRow : MonthlyBudgetSpendCategory)
    (tracked : List MonthlyBudgetSpendCategory)
    (hg : gRow.category = "general")
    (hgu : gRow.userId = uid) (hgm : gRow.monthYear = my)
    (htr : ∀ r ∈ tracked,
      r.category ≠ "general" ∧ r.userId = uid ∧ r.monthYear = my)
    (hone : ∀ t ∈ txns,
      ((tracked.map (·.category)).filter
        (fun c => t.category.contains c)).length ≤ 1) :
    GetCategoriesToExclude (gRow :: tracked) uid my
        = tracked.map (·.category) ∧
    spendForCategory txns (tracked.map (·.category)) gRow
        = (((monthTransactions txns uid my).filter (fun t =>
            !(categoryOverlaps t.category (tracked.map (·.category))))).map
            (·.amount)).sum ∧
    overallTotalSpent txns (tracked.map (·.category)) (gRow :: tracked)
        = ((monthTransactions txns uid my).map (·.amount)).sum := by
  refine ⟨?_, ?_, ?_⟩
  · unfold GetCategoriesToExclude
    rw [List.filter_cons]
    have hgfalse :
        (gRow.userId == uid && gRow.monthYear == my &&
          gRow.category != "general") = false := by
      simp [hg]
    rw [hgfalse]
    simp only [Bool.false_eq_true, if_false]
    rw [List.filter_eq_self.mpr]
    intro r hr
    obtain ⟨h1, h2, h3⟩ := htr r hr
    simp [h1, h2, h3]
  · rw [spendForCategory, if_pos hg, calculateSpendExcludingCategories,
      hgu, hgm, getTransactionsExcluding_eq_filter, monthTransactions,
      List.filter_filter]
    have hfeq : txns.filter (fun t =>
        t.userId == uid && t.monthYear == my &&
          !(categoryOverlaps t.category (tracked.map (·.category))))
        = txns.filter (fun a =>
            !(categoryOverlaps a.category (tracked.map (·.category))) &&
              (a.userId == uid && a.monthYear == my)) := by
      apply List.filter_congr
      intro a _
      cases a.userId == uid <;> cases a.monthYear == my <;>
        cases categoryOverlaps a.category (tracked.map (·.category)) <;> rfl
    rw [hfeq]
  · unfold overallTotalSpent
    rw [List.map_cons, List.sum_cons]
    rw [spendForCategory, if_pos hg, calculateSpendExcludingCategories,
      hgu, hgm, getTransactionsExcluding_eq_filter,
      sum_filter_map_eq_sum_ite]
    have hmap : tracked.map (spendForCategory txns (tracked.map (·.category)))
        = (tracked.map (·.category)).map (fun name =>
            (txns.map (fun t =>
              if t.userId == uid && t.monthYear == my &&
                  categoryContains t.category name
              then t.amount else 0)).sum) := by
      rw [List.map_map]
      apply List.map_congr_left
      intro r hr
      obtain ⟨h1, h2, h3⟩ := htr r hr
      simp only [Function.comp_apply]
      rw [spendForCategory, if_neg h1, calculateSpendByCategory,
        GetTransactionsByCategory, h2, h3, sum_filter_map_eq_sum_ite]
    rw [hmap, sum_map_swap, ← List.sum_map_add]
    have hpt : txns.map (fun t =>
        (if t.userId == uid && t.monthYear == my &&
            !(categoryOverlaps t.category (tracked.map (·.category)))
          then t.amount else 0)
        + ((tracked.map (·.category)).map (fun name =>
            if t.userId == uid && t.monthYear == my &&
                categoryContains t.category name
            then t.amount else 0)).sum)
        = txns.map (fun t =>
            if t.userId == uid && t.monthYear == my then t.amount else 0) := by
      apply List.map_congr_left
      intro t ht
      cases h1 : t.userId == uid
      · simp only [h1, Bool.false_and, Bool.false_eq_true, if_false, zero_add]
        exact List.sum_eq_zero (by simp)
      · cases h2 : t.monthYear == my
        · simp only [h1, h2, Bool.true_and, Bool.false_and,
            Bool.false_eq_true, if_false, zero_add]
          exact List.sum_eq_zero (by simp)
        · simp only [h1, h2, Bool.true_and]
          have hw := per_transaction_weight (tracked.map (·.category))
            t.category t.amount (hone t ht)
          rw [show (if !(categoryOverlaps t.category (tracked.map (·.category)))
                then t.amount else 0)
              = (if categoryOverlaps t.category (tracked.map (·.category))
                then 0 else t.amount) from by
            cases categoryOverlaps t.category (tracked.map (·.category)) <;> simp]
          exact hw
    rw [hpt, ← sum_filter_map_eq_sum_ite, monthTransactions]

/-- Concrete transaction used by the partition witness. -/
def w1Txn : Transaction :=
  { transactionId := "w1", userId := 1, amount := 7, monthYear := 72025,
    category := ["dining"] }

/-- Concrete untracked transaction used by the partition witness. -/
def w1Txn2 : Transaction :=
  { transactionId := "w2", userId := 1, amount := 3, monthYear := 72025,
    category := ["coffee"] }

/-- Concrete "general" budget row used by the partition witness. -/
def w1General : MonthlyBudgetSpendCategory :=
  { id := "g", userId := 1, monthlySummaryId := 1, monthYear := 72025,
    category := "general", budget := 300, dailyAllowance := 0,
    totalSpent := 0 }

/-- Concrete tracked budget row used by the partition witness. -/
def w1Dining : MonthlyBudgetSpendCategory :=
  { id := "d", userId := 1, monthlySummaryId := 1, monthYear := 72025,
    category := "dining", budget := 90, dailyAllowance := 0,
    totalSpent := 0 }

/-- Witness for `category_spend_partition` at a concrete month with one
tracked category and single-tag transactions. -/
theorem category_spend_partition_witness :
    (∀ r ∈ [w1Dining],
      r.category ≠ "general" ∧ r.userId = 1 ∧ r.monthYear = 72025) ∧
    (∀ t ∈ [w1Txn, w1Txn2],
      (([w1Dining].map (·.category)).filter
        (fun c => t.category.contains c)).length ≤ 1) ∧
    (GetCategoriesToExclude [w1General, w1Dining] 1 72025
        = [w1Dining].map (·.category) ∧
     spendForCategory [w1Txn, w1Txn2] ([w1Dining].map (·.category)) w1General
        = (((monthTransactions [w1Txn, w1Txn2] 1 72025).filter (fun t =>
            !(categoryOverlaps t.category ([w1Dining].map (·.category))))).map
            (·.amount)).sum ∧
     overallTotalSpent [w1Txn, w1Txn2] ([w1Dining].map (·.category))
        (w1General :: [w1Dining])
        = ((monthTransactions [w1Txn, w1Txn2] 1 72025).map (·.amount)).sum) :=
  ⟨by decide, by decide,
    category_spend_partition [w1Txn, w1Txn2] 1 72025 w1General [w1Dining]
      rfl rfl rfl (by decide) (by decide)⟩

/-- C1 counterexample: a single transaction of amount 5 tagged with two
tracked category names ("dining" and "travel") is counted by both
categories and excluded from "general", so the persisted total for the
month is 10 while the month's transactions sum to 5 — refuting the
claim's "no transaction counted in more than one category". -/
theorem multi_tag_double_count_counterexample :
    (let txn : Transaction :=
      { transactionId := "t1", userId := 1, amount := 5, monthYear := 72025,
        category := ["dining", "travel"] }
     let gRow : MonthlyBudgetSpendCategory :=
      { id := "g", userId := 1, monthlySummaryId := 1, monthYear := 72025,
        category := "general", budget := 300, dailyAllowance := 0,
        totalSpent := 0 }
     let dRow : MonthlyBudgetSpendCategory :=
      { gRow with id := "d", category := "dining", budget := 90 }
     let tRow : MonthlyBudgetSpendCategory :=
      { gRow with id := "t", category := "travel", budget := 60 }
     overallTotalSpent [txn]
        (GetCategoriesToExclude [gRow, dRow, tRow] 1 72025)
        [gRow, dRow, tRow] = 10 ∧
     ((monthTransactions [txn] 1 72025).map (·.amount)).sum = 5) := by
  refine ⟨?_, ?_⟩ <;>
    simp [overallTotalSpent, GetCategoriesToExclude, spendForCategory,
      calculateSpendExcludingCategories, calculateSpendByCategory,
      GetTransactionsExcludingCategories, GetTransactionsByCategory,
      monthTransactions, categoryOverlaps, categoryContains,
      List.filter_cons, List.contains]
  norm_num

/-- C2: when the pre-redistribution allowances have a deficit
(`total_negative < 0`), some positive headroom (`total_positive > 0`),
and the headroom covers the deficit (`total_positive >= needed` with
`needed = -total_negative`), the redistribution pass zeroes every
category whose allowance was negative, scales every category whose
allowance was non-negative by `1 - needed / total_positive`, and the
resulting sum over the previously non-negative categories is
`total_positive - needed`. -/
theorem redistribution_covers_deficit (l : List CategoryWithAllowance)
    (hflag : ∀ c ∈ l, c.isNegative = decide (c.dailyAllowance < 0))
    (hneg : totalNegativeAllowance l < 0)
    (hpos : totalPositiveAllowance l > 0)
    (hcover : totalPositiveAllowance l ≥ -(totalNegativeAllowance l)) :
    redistributeAllowances l
      = l.map (fun c =>
          if c.dailyAllowance < 0 then { c with dailyAllowance := 0 }
          else { c with dailyAllowance := c.dailyAllowance *
              (1 - (-(totalNegativeAllowance l)) /
                totalPositiveAllowance l) }) ∧
    totalPositiveAllowance (redistributeAllowances l)
      = totalPositiveAllowance l - (-(totalNegativeAllowance l)) := by
  have hbranch : redistributeAllowances l
      = l.map (fun c =>
          if c.isNegative then { c with dailyAllowance := 0 }
          else { c with dailyAllowance := c.dailyAllowance *
              (1 - (-(totalNegativeAllowance l)) /
                totalPositiveAllowance l) }) := by
    unfold redistributeAllowances
    rw [if_pos ⟨hneg, hpos⟩, if_pos hcover]
  have hmain : redistributeAllowances l
      = l.map (fun c =>
          if c.dailyAllowance < 0 then { c with dailyAllowance := 0 }
          else { c with dailyAllowance := c.dailyAllowance *
              (1 - (-(totalNegativeAllowance l)) /
                totalPositiveAllowance l) }) := by
    rw [hbranch]
    apply List.map_congr_left
    intro c hc
    rw [hflag c hc]
    by_cases h : c.dailyAllowance < 0
    · rw [if_pos h, if_pos (by simp [h])]
    · rw [if_neg h, if_neg (by simp [h])]
  refine ⟨hmain, ?_⟩
  rw [hbranch, totalPositiveAllowance]
  have hFkeep : ∀ c : CategoryWithAllowance,
      ((if c.isNegative then { c with dailyAllowance := 0 }
        else { c with dailyAllowance := c.dailyAllowance *
            (1 - (-(totalNegativeAllowance l)) /
              totalPositiveAllowance l) }) :
        CategoryWithAllowance).isNegative = c.isNegative := by
    intro c
    by_cases h : c.isNegative <;> simp [h]
  rw [List.filter_map]
  have hfcong : l.filter ((fun c => !c.isNegative) ∘ (fun c =>
        if c.isNegative then { c with dailyAllowance := 0 }
        else { c with dailyAllowance := c.dailyAllowance *
            (1 - (-(totalNegativeAllowance l)) /
              totalPositiveAllowance l) }))
      = l.filter (fun c => !c.isNegative) := by
    apply List.filter_congr
    intro c _
    simp only [Function.comp_apply, hFkeep]
  rw [hfcong, List.map_map]
  have hscale : (l.filter (fun c => !c.isNegative)).map ((fun c =>
        c.dailyAllowance) ∘ (fun c =>
        if c.isNegative then { c with dailyAllowance := 0 }
        else { c with dailyAllowance := c.dailyAllowance *
            (1 - (-(totalNegativeAllowance l)) /
              totalPositiveAllowance l) }))
      = (l.filter (fun c => !c.isNegative)).map (fun c =>
          c.dailyAllowance *
            (1 - (-(totalNegativeAllowance l)) / totalPositiveAllowance l)) := by
    apply List.map_congr_left
    intro c hc
    have hcneg : c.isNegative = false := by
      have := (List.mem_filter.mp hc).2
      simpa using this
    simp only [Function.comp_apply, hcneg, Bool.false_eq_true, if_false]
  rw [hscale, List.sum_map_mul_right]
  have htp : ((l.filter (fun c => !c.isNegative)).map
      (fun c => c.dailyAllowance)).sum = totalPositiveAllowance l := rfl
  rw [htp]
  have hne : totalPositiveAllowance l ≠ 0 := ne_of_gt hpos
  field_simp

/-- Concrete overspent category (allowance -90) for the redistribution
witnesses, following the spec's dining example. -/
def w2Dining : CategoryWithAllowance :=
  { category := w1Dining, dailyAllowance := -90, isNegative := true }

/-- Concrete underspent category (allowance 150) for the redistribution
witness. -/
def w2General : CategoryWithAllowance :=
  { category := w1General, dailyAllowance := 150, isNegative := false }

/-- Witness for `redistribution_covers_deficit` on the spec's example:
dining at -90 and general at 150; needed = 90 ≤ 150. -/
theorem redistribution_covers_deficit_witness :
    (∀ c ∈ [w2Dining, w2General],
      c.isNegative = decide (c.dailyAllowance < 0)) ∧
    totalNegativeAllowance [w2Dining, w2General] < 0 ∧
    totalPositiveAllowance [w2Dining, w2General] > 0 ∧
    totalPositiveAllowance [w2Dining, w2General]
      ≥ -(totalNegativeAllowance [w2Dining, w2General]) ∧
    (redistributeAllowances [w2Dining, w2General]
      = [w2Dining, w2General].map (fun c =>
          if c.dailyAllowance < 0 then { c with dailyAllowance := 0 }
          else { c with dailyAllowance := c.dailyAllowance *
              (1 - (-(totalNegativeAllowance [w2Dining, w2General])) /
                totalPositiveAllowance [w2Dining, w2General]) }) ∧
    totalPositiveAllowance (redistributeAllowances [w2Dining, w2General])
      = totalPositiveAllowance [w2Dining, w2General]
        - (-(totalNegativeAllowance [w2Dining, w2General]))) := by
  have h1 : ∀ c ∈ [w2Dining, w2General],
      c.isNegative = decide (c.dailyAllowance < 0) := by
    intro c hc
    simp only [List.mem_cons, List.not_mem_nil, or_false] at hc
    rcases hc with h | h
    · subst h; norm_num [w2Dining]
    · subst h; norm_num [w2General]
  have h2 : totalNegativeAllowance [w2Dining, w2General] < 0 := by
    norm_num [totalNegativeAllowance, List.filter_cons, w2Dining, w2General]
  have h3 : totalPositiveAllowance [w2Dining, w2General] > 0 := by
    norm_num [totalPositiveAllowance, List.filter_cons, w2Dining, w2General]
  have h4 : totalPositiveAllowance [w2Dining, w2General]
      ≥ -(totalNegativeAllowance [w2Dining, w2General]) := by
    norm_num [totalPositiveAllowance, totalNegativeAllowance,
      List.filter_cons, w2Dining, w2General]
  exact ⟨h1, h2, h3, h4,
    redistribution_covers_deficit [w2Dining, w2General] h1 h2 h3 h4⟩

/-- C3: when the non-negative allowances cannot cover the deficit
(`total_positive < needed`), the redistribution pass leaves every
category's allowance at its pre-redistribution value. -/
theorem redistribution_noop_when_insufficient (l : List CategoryWithAllowance)
    (h : totalPositiveAllowance l < -(totalNegativeAllowance l)) :
    redistributeAllowances l = l := by
  unfold redistributeAllowances
  by_cases hc : totalNegativeAllowance l < 0 ∧ totalPositiveAllowance l > 0
  · rw [if_pos hc, if_neg (not_le.mpr h)]
  · rw [if_neg hc]

/-- Concrete deep-deficit category (allowance -100) for the no-op
witness. -/
def w3Deficit : CategoryWithAllowance :=
  { category := w1Dining, dailyAllowance := -100, isNegative := true }

/-- Concrete small-headroom category (allowance 30) for the no-op
witness. -/
def w3Small : CategoryWithAllowance :=
  { category := w1General, dailyAllowance := 30, isNegative := false }

/-- Witness for `redistribution_noop_when_insufficient`: a -100 deficit
against only 30 of headroom leaves the list unchanged. -/
theorem redistribution_noop_witness :
    totalPositiveAllowance [w3Deficit, w3Small]
      < -(totalNegativeAllowance [w3Deficit, w3Small]) ∧
    redistributeAllowances [w3Deficit, w3Small] = [w3Deficit, w3Small] := by
  have h : totalPositiveAllowance [w3Deficit, w3Small]
      < -(totalNegativeAllowance [w3Deficit, w3Small]) := by
    norm_num [totalPositiveAllowance, totalNegativeAllowance,
      List.filter_cons, w3Deficit, w3Small]
  exact ⟨h, redistribution_noop_when_insufficient [w3Deficit, w3Small] h⟩

/-- C9: for every budget, spend and day-of-month, the pre-redistribution
daily allowance equals `(budget / 30) * day - spend` — the divisor is the
fixed constant 30 whatever the calendar month — and on the spec's example
(budget 300, spend 80, day 10) it is exactly 20. -/
theorem daily_allowance_formula :
    (∀ (spent monthly_budget : ℚ) (daysIntoMonth : Nat),
      calculateDailyLeftToSpend spent monthly_budget daysIntoMonth =
        monthly_budget / 30 * (daysIntoMonth : ℚ) - spent) ∧
    calculateDailyLeftToSpend 80 300 10 = 20 := by
  refine ⟨fun spent monthly_budget daysIntoMonth => rfl, by norm_num [calculateDailyLeftToSpend]⟩

/-! ### Plaid transaction fetch (`processFetchPlaidTransactions` and
`plaid.GetTransactions`) — C4 -/

/-- Gregorian leap-year rule (as in Go's `time` package). -/
def isLeapYear (y : Nat) : Bool :=
  (y % 4 == 0 && y % 100 != 0) || (y % 400 == 0)

/-- Days in month `m` (1-12) of year `y`. -/
def daysInMonth (y m : Nat) : Nat :=
  if m == 2 then (if isLeapYear y then 29 else 28)
  else if m == 4 || m == 6 || m == 9 || m == 11 then 30
  else 31

/-- Days in the years 1..y-1 of the proleptic Gregorian calendar. -/
def daysBeforeYear (y : Nat) : Nat :=
  let n := y - 1
  365 * n + n / 4 - n / 100 + n / 400

/-- Days in months 1..m-1 of year `y`. -/
def daysBeforeMonth (y m : Nat) : Nat :=
  (List.range (m - 1)).foldl (fun acc i => acc + daysInMonth y (i + 1)) 0

/-- Absolute day number of the (possibly denormalized, as accepted by
Go's `time.Date`) calendar day `(y, m, d)`: month 13 is January of the
next year, and day 0 the day before the first of the month. -/
def toDayNumber (y m d : Nat) : Nat :=
  daysBeforeYear y + daysBeforeMonth y m + d

/-- Embeds the date-range computation of `processFetchPlaidTransactions`:
`month = monthYear / 10000`, `year = monthYear % 10000`; `startDate` is
the first day of that month and `endDate` is day 0 of the following month
(which Go's `time.Date` normalizes to the last day of the month). -/
def plaidFetchRange (monthYear : Nat) : Nat × Nat :=
  let month := monthYear / 10000
  let year := monthYear % 10000
  (toDayNumber year month 1, toDayNumber year (month + 1) 0)

/-- A transaction as returned by the Plaid aggregator, with its date as
an absolute day number. -/
structure PlaidTransaction where
  transactionId : String
  amount : ℚ
  date : Nat
  deriving Repr, DecidableEq

/-- Embeds `plaid.GetTransactions` from `plaid/plaid.go`: the function
receives `startDate` and `endDate` but immediately overwrites both with
`time.Now().Add(-365 * 24 * time.Hour)` and `time.Now()` before building
the TransactionsGet request, so the range actually queried is always the
trailing 365 days ending now.  The aggregator itself is modelled as
returning exactly the transactions dated inside the queried range. -/
def plaidGetTransactions (world : List PlaidTransaction) (nowDay : Nat)
    ( startDate endDate : Nat) : List PlaidTransaction :=
  let startDate := nowDay - 365
  let endDate := nowDay
  world.filter (fun t => startDate ≤ t.date && t.date ≤ endDate)

/-- The transactions fetched (and then persisted) by a
`fetch_plaid_transactions` job for the given month: the worker computes
the month's range and passes it to `plaid.GetTransactions`. -/
def processFetchPlaidTransactionsFetched (world : List PlaidTransaction)
    (nowDay monthYear : Nat) : List PlaidTransaction :=
  let range := plaidFetchRange monthYear
  plaidGetTransactions world nowDay range.1 range.2

/-- Stated from the claim, for comparison: the fetch the spec describes
returns exactly the transactions dated within the named month
(first day through last day). -/
def claimedMonthFetch (world : List PlaidTransaction) (monthYear : Nat) :
    List PlaidTransaction :=
  let range := plaidFetchRange monthYear
  world.filter (fun t => range.1 ≤ t.date && t.date ≤ range.2)

/-- A transaction dated 2024-01-15, inside the requested January-2024
month of the C4 failing input. -/
def c4JanTxn : PlaidTransaction :=
  { transactionId := "jan", amount := 5, date := toDayNumber 2024 1 15 }

/-- A transaction dated 2025-10-10, outside January 2024 but inside the
trailing-365-day window of the C4 failing input. -/
def c4RecentTxn : PlaidTransaction :=
  { transactionId := "recent", amount := 7, date := toDayNumber 2025 10 10 }

/-- C4 (code bug): `plaid.GetTransactions` ignores the requested date
range entirely — its result does not depend on the `startDate`/`endDate`
arguments — and on the failing input (job for month_year 12024, i.e.
January 2024, run on 2025-10-11) the fetched set is the trailing-365-day
window, not the requested month: the January transaction is missed and an
out-of-month recent transaction is fetched instead. -/
theorem plaid_fetch_ignores_requested_range :
    (∀ (world : List PlaidTransaction) (nowDay s1 e1 s2 e2 : Nat),
      plaidGetTransactions world nowDay s1 e1
        = plaidGetTransactions world nowDay s2 e2) ∧
    ((processFetchPlaidTransactionsFetched [c4JanTxn, c4RecentTxn]
        (toDayNumber 2025 10 11) 12024).map (·.transactionId)
      = ["recent"]) ∧
    ((claimedMonthFetch [c4JanTxn, c4RecentTxn] 12024).map
        (·.transactionId) = ["jan"]) := by
  refine ⟨fun world nowDay s1 e1 s2 e2 => rfl, ?_, ?_⟩ <;> decide

/-! ### Persistence save paths (`SaveTellerAccount`,
`SaveTellerTransactions`, `CreatePlaidTransactions`) — C5 -/

/-- A Teller transaction payload as consumed by `SaveTellerTransactions`,
reduced to its aggregator id and a representative mutable column; the
remaining value columns (amount, date, status, links, …) play the same
role as `description` here and do not affect row identity. -/
structure TellerTransactionPayload where
  id : String
  description : String
  deriving Repr, DecidableEq

/-- A row of the `transactions` table as touched by the two batch-insert
paths: the surrogate primary key `id` (`gen_random_uuid()`, modelled as a
fresh natural number), the owner, the two aggregator id columns
(`teller_transaction_id` no longer carries a unique constraint after
migration 000011) and a representative mutable column. -/
structure DbTransactionRow where
  id : Nat
  userId : Nat
  tellerTransactionId : String
  plaidTransactionId : String
  description : String
  deriving Repr, DecidableEq

/-- Embeds one row of `SaveTellerTransactions`' batch INSERT: the VALUES
list never includes the `id` column, so the inserted row receives a
freshly generated uuid (`freshId`); the `ON CONFLICT (id) DO UPDATE`
target is that same surrogate column, so the update branch fires only
when the fresh id already exists in the table. -/
def insertTellerTransactionRow (store : List DbTransactionRow)
    (freshId userId : Nat) (t : TellerTransactionPayload) :
    List DbTransactionRow :=
  if store.any (fun r => r.id == freshId) then
    store.map (fun r =>
      if r.id == freshId then { r with description := t.description } else r)
  else
    store ++
      [{ id := freshId, userId := userId,
         tellerTransactionId := t.id, plaidTransactionId := "",
         description := t.description }]

/-- Embeds the row loop of `SaveTellerTransactions` (the all-rows-succeed
case of the batch; the failure/rollback behavior is the subject of the
C7 section), threading the uuid generator as a counter that yields ids
never used before. -/
def saveTellerTransactionsRows (store : List DbTransactionRow)
    (nextId userId : Nat) (ts : List TellerTransactionPayload) :
    List DbTransactionRow × Nat :=
  ts.foldl (fun acc t =>
    (insertTellerTransactionRow acc.1 acc.2 userId t, acc.2 + 1))
    (store, nextId)

/-- A Plaid transaction payload as consumed by
`CreatePlaidTransactions`, reduced as above. -/
structure PlaidTransactionPayload where
  transactionId : String
  name : String
  deriving Repr, DecidableEq

/-- Embeds `CreatePlaidTransactions`' bulk INSERT: it carries no
ON CONFLICT clause at all, so it unconditionally appends one fresh row
per transaction. -/
def createPlaidTransactionsRows (store : List DbTransactionRow)
    (nextId userId : Nat) (ts : List PlaidTransactionPayload) :
    List DbTransactionRow × Nat :=
  ts.foldl (fun acc t =>
    (acc.1 ++
      [{ id := acc.2, userId := userId,
         tellerTransactionId := "", plaidTransactionId := t.transactionId,
         description := t.name }], acc.2 + 1))
    (store, nextId)

/-- A row of the `teller_accounts` table; here `id` IS the
aggregator-assigned account id (a VARCHAR primary key). -/
structure TellerAccountRow where
  id : String
  accountName : String
  transactionsLink : String
  deriving Repr, DecidableEq

/-- Embeds `SaveTellerAccount`'s `INSERT ... ON CONFLICT (id) DO UPDATE`:
the `id` column of `teller_accounts` is the aggregator account id
supplied in the VALUES, so re-saving the same account updates the
existing row in place. -/
def saveTellerAccountRow (store : List TellerAccountRow)
    (a : TellerAccountRow) : List TellerAccountRow :=
  if store.any (fun r => r.id == a.id) then
    store.map (fun r =>
      if r.id == a.id then
        { r with
            accountName := a.accountName,
            transactionsLink := a.transactionsLink }
      else r)
  else
    store ++ [a]

/-- C5 (code bug, evaluated at the failing input): saving the same Teller
transaction twice leaves two rows with the same aggregator transaction
id (the ON CONFLICT target is the always-fresh surrogate id, so the
update branch never fires), inserting the same Plaid transaction twice
likewise appends a second row (no ON CONFLICT clause at all), while the
account path — whose primary key is the aggregator id — is idempotent as
claimed. -/
theorem duplicate_rows_on_resave :
    (let t : TellerTransactionPayload := { id := "txn_1", description := "coffee" }
     let once := saveTellerTransactionsRows [] 0 1 [t]
     let twice := saveTellerTransactionsRows once.1 once.2 1 [t]
     (twice.1.filter (fun r => r.tellerTransactionId == "txn_1")).length = 2) ∧
    (let p : PlaidTransactionPayload := { transactionId := "ptxn_1", name := "groceries" }
     let once := createPlaidTransactionsRows [] 0 1 [p]
     let twice := createPlaidTransactionsRows once.1 once.2 1 [p]
     (twice.1.filter (fun r => r.plaidTransactionId == "ptxn_1")).length = 2) ∧
    (let a : TellerAccountRow :=
      { id := "acc_1", accountName := "Checking", transactionsLink := "https://t" }
     (saveTellerAccountRow (saveTellerAccountRow [] a) a).length = 1) := by
  refine ⟨?_, ?_, ?_⟩ <;> decide

/-! ### Initial Plaid sync (`processInitialPlaidSync`) — C6 -/

/-- A row of the `plaid_tokens` pending-token table as used by the
worker: its id, owner, and the `is_processed` flag. -/
structure PlaidTokenRecord where
  id : String
  userId : Nat
  isProcessed : Bool
  deriving Repr, DecidableEq

/-- Embeds `database.GetUserIdFromAccessToken`: resolves the
pending-token row for the access token and fails when the token was
already marked processed. -/
def GetUserIdFromAccessToken (tok : PlaidTokenRecord) :
    Except String (String × Nat) :=
  if tok.isProcessed then Except.error "access token already processed"
  else Except.ok (tok.id, tok.userId)

/-- A Plaid account as returned by the aggregator's accounts call,
reduced to the id the fan-out uses. -/
structure PlaidAccount where
  accountId : String
  deriving Repr, DecidableEq

/-- The `fetch_plaid_transactions` payload enqueued per account. -/
structure PlaidFetchJob where
  accountId : String
  userId : Nat
  deriving Repr, DecidableEq

/-- The observable outcome of one `initial_plaid_sync` run: the
pending-token row after the run, the accounts upserted by
`CreatePlaidAccount`, the fanned-out jobs, and the job's error. -/
structure PlaidSyncOutcome where
  tokenRecord : PlaidTokenRecord
  savedAccounts : List PlaidAccount
  enqueued : List PlaidFetchJob
  jobError : Option String
  deriving Repr, DecidableEq

/-- Embeds `processInitialPlaidSync`: after the accounts fetch, the token
is resolved (failing if already processed, before anything is written),
marked processed, the accounts are upserted, and one
`fetch_plaid_transactions` job is enqueued per account. -/
def processInitialPlaidSync (tok : PlaidTokenRecord)
    (accounts : List PlaidAccount) : PlaidSyncOutcome :=
  match GetUserIdFromAccessToken tok with
  | Except.error e =>
    { tokenRecord := tok, savedAccounts := [], enqueued := [],
      jobError := some e }
  | Except.ok (_, userId) =>
    let tok2 := { tok with isProcessed := true }
    { tokenRecord := tok2, savedAccounts := accounts,
      enqueued := accounts.map (fun a =>
        { accountId := a.accountId, userId := userId }),
      jobError := none }

/-- C6: running `initial_plaid_sync` on an already-processed token fails
the job, upserts no account and enqueues nothing; a first run on an
unprocessed token succeeds, sets the processed flag, upserts the
accounts and fans out one job per account; and a second run on the
resulting token record fails with no accounts and no jobs — at most one
initial sync per token ever persists and fans out. -/
theorem initial_plaid_sync_at_most_once :
    ∀ (tokId : String) (uid : Nat) (accounts accounts2 : List PlaidAccount),
      processInitialPlaidSync ⟨tokId, uid, true⟩ accounts
        = { tokenRecord := ⟨tokId, uid, true⟩, savedAccounts := [],
            enqueued := [],
            jobError := some "access token already processed" } ∧
      (processInitialPlaidSync ⟨tokId, uid, false⟩ accounts).jobError
        = none ∧
      (processInitialPlaidSync
          ⟨tokId, uid, false⟩ accounts).tokenRecord.isProcessed = true ∧
      (processInitialPlaidSync ⟨tokId, uid, false⟩ accounts).savedAccounts
        = accounts ∧
      (processInitialPlaidSync ⟨tokId, uid, false⟩ accounts).enqueued
        = accounts.map (fun a => { accountId := a.accountId, userId := uid }) ∧
      (processInitialPlaidSync
          (processInitialPlaidSync ⟨tokId, uid, false⟩ accounts).tokenRecord
          accounts2).jobError = some "access token already processed" ∧
      (processInitialPlaidSync
          (processInitialPlaidSync ⟨tokId, uid, false⟩ accounts).tokenRecord
          accounts2).savedAccounts = [] ∧
      (processInitialPlaidSync
          (processInitialPlaidSync ⟨tokId, uid, false⟩ accounts).tokenRecord
          accounts2).enqueued = [] := by
  intro tokId uid accounts accounts2
  exact ⟨rfl, rfl, rfl, rfl, rfl, rfl, rfl, rfl⟩

/-! ### Teller transaction batch atomicity
(`SaveTellerTransactions` / `processFetchTransactions`) — C7 -/

/-- Embeds the row loop of `SaveTellerTransactions` against a fallible
per-row insert (`ins` returns `none` on a DB error, as
`stmt.QueryRow(...).Scan(...)` can fail): rows are staged inside the
open database transaction, and the first failing row aborts the loop. -/
def saveTellerBatchAux
    (ins : List DbTransactionRow → TellerTransactionPayload →
      Option (List DbTransactionRow))
    (staged : List DbTransactionRow) :
    List TellerTransactionPayload → Option (List DbTransactionRow)
  | [] => some staged
  | t :: ts =>
    match ins staged t with
    | none => none
    | some staged2 => saveTellerBatchAux ins staged2 ts

/-- Embeds `SaveTellerTransactions`' transactional envelope: the batch
runs inside `tx.Begin()` with a deferred `tx.Rollback()`; a row failure
returns the error (the deferred rollback leaves the committed store
unchanged), and `tx.Commit()` installs the staged rows only when every
row succeeded.  An empty batch returns immediately.  The result pairs
the committed store with the job-level error. -/
def saveTellerTransactionsTx
    (ins : List DbTransactionRow → TellerTransactionPayload →
      Option (List DbTransactionRow))
    (store : List DbTransactionRow)
    (ts : List TellerTransactionPayload) :
    List DbTransactionRow × Option String :=
  if ts.isEmpty then (store, none)
  else
    match saveTellerBatchAux ins store ts with
    | none => (store, some "failed to insert transaction")
    | some staged => (staged, none)

/-- Embeds the persistence step of `processFetchTransactions`: the job
reports the batch save's error (`failed to save transactions`) and
succeeds only when the batch committed. -/
def processFetchTransactionsPersist
    (ins : List DbTransactionRow → TellerTransactionPayload →
      Option (List DbTransactionRow))
    (store : List DbTransactionRow)
    (fetched : List TellerTransactionPayload) :
    List DbTransactionRow × Option String :=
  let result := saveTellerTransactionsTx ins store fetched
  match result.2 with
  | some _ => (result.1, some "failed to save transactions")
  | none => (result.1, none)

/-- A batch containing a row on which every insert attempt fails makes
the whole staged run fail. -/
theorem saveTellerBatchAux_fails
    (ins : List DbTransactionRow → TellerTransactionPayload →
      Option (List DbTransactionRow))
    (t0 : TellerTransactionPayload)
    (hfail : ∀ staged, ins staged t0 = none) :
    ∀ (ts : List TellerTransactionPayload) (staged : List DbTransactionRow),
      t0 ∈ ts → saveTellerBatchAux ins staged ts = none := by
  intro ts
  induction ts with
  | nil => intro staged h; exact absurd h (List.not_mem_nil t0)
  | cons t ts ih =>
    intro staged hmem
    rcases List.mem_cons.mp hmem with h | h
    · subst h
      simp [saveTellerBatchAux, hfail staged]
    · show saveTellerBatchAux ins staged (t :: ts) = none
      unfold saveTellerBatchAux
      cases hins : ins staged t with
      | none => rfl
      | some staged2 => exact ih staged2 h

/-- C7: if any row of a fetched Teller batch fails to insert, the whole
database transaction rolls back — the committed store is exactly the
pre-call store — and the job is reported failed; and (for any insert
behavior) the batch commits, with the staged rows installed, only when
every row succeeded. -/
theorem teller_batch_rollback_atomic
    (ins : List DbTransactionRow → TellerTransactionPayload →
      Option (List DbTransactionRow))
    (store : List DbTransactionRow)
    (ts : List TellerTransactionPayload)
    (t0 : TellerTransactionPayload)
    (hmem : t0 ∈ ts)
    (hfail : ∀ staged, ins staged t0 = none) :
    (processFetchTransactionsPersist ins store ts).1 = store ∧
    (processFetchTransactionsPersist ins store ts).2
      = some "failed to save transactions" ∧
    (∀ (ins2 : List DbTransactionRow → TellerTransactionPayload →
        Option (List DbTransactionRow)),
      (saveTellerTransactionsTx ins2 store ts).2 = none →
        saveTellerBatchAux ins2 store ts
          = some (saveTellerTransactionsTx ins2 store ts).1) := by
  have hne : ts.isEmpty = false := by
    cases ts with
    | nil => exact absurd hmem (List.not_mem_nil t0)
    | cons t ts => rfl
  have haux : saveTellerBatchAux ins store ts = none :=
    saveTellerBatchAux_fails ins t0 hfail ts store hmem
  have hsave : saveTellerTransactionsTx ins store ts
      = (store, some "failed to insert transaction") := by
    unfold saveTellerTransactionsTx
    rw [hne, haux]
    rfl
  refine ⟨?_, ?_, ?_⟩
  · unfold processFetchTransactionsPersist
    rw [hsave]
  · unfold processFetchTransactionsPersist
    rw [hsave]
  · intro ins2 hok
    unfold saveTellerTransactionsTx at hok ⊢
    rw [hne] at hok ⊢
    cases haux2 : saveTellerBatchAux ins2 store ts with
    | none => rw [haux2] at hok; exact absurd hok (by simp)
    | some staged => rw [haux2] at hok; rfl

/-- The concrete fallible insert used by the rollback witness: it
appends a row, except that the transaction with id "bad" always fails. -/
def w7Insert (staged : List DbTransactionRow)
    (t : TellerTransactionPayload) : Option (List DbTransactionRow) :=
  if t.id == "bad" then none
  else some (insertTellerTransactionRow staged staged.length 1 t)

/-- The pre-existing committed row for the rollback witness. -/
def w7Row : DbTransactionRow :=
  { id := 0, userId := 1, tellerTransactionId := "old",
    plaidTransactionId := "", description := "existing" }

/-- Witness for `teller_batch_rollback_atomic`: a two-row batch whose
second row always fails leaves the committed store untouched and fails
the job. -/
theorem teller_batch_rollback_atomic_witness :
    ({ id := "bad", description := "boom" } : TellerTransactionPayload)
      ∈ [({ id := "good", description := "fine" } : TellerTransactionPayload),
         { id := "bad", description := "boom" }] ∧
    (∀ staged, w7Insert staged { id := "bad", description := "boom" } = none) ∧
    ((processFetchTransactionsPersist w7Insert [w7Row]
        [{ id := "good", description := "fine" },
         { id := "bad", description := "boom" }]).1 = [w7Row] ∧
     (processFetchTransactionsPersist w7Insert [w7Row]
        [{ id := "good", description := "fine" },
         { id := "bad", description := "boom" }]).2
        = some "failed to save transactions" ∧
     (∀ (ins2 : List DbTransactionRow → TellerTransactionPayload →
         Option (List DbTransactionRow)),
       (saveTellerTransactionsTx ins2 [w7Row]
          [{ id := "good", description := "fine" },
           { id := "bad", description := "boom" }]).2 = none →
         saveTellerBatchAux ins2 [w7Row]
            [{ id := "good", description := "fine" },
             { id := "bad", description := "boom" }]
           = some (saveTellerTransactionsTx ins2 [w7Row]
              [{ id := "good", description := "fine" },
               { id := "bad", description := "boom" }]).1)) :=
  ⟨by decide, fun staged => rfl,
    teller_batch_rollback_atomic w7Insert [w7Row]
      [{ id := "good", description := "fine" },
       { id := "bad", description := "boom" }]
      { id := "bad", description := "boom" }
      (by decide) (fun staged => rfl)⟩

/-! ### New-Teller-link fan-out (`processTellerSuccess`) — C8 -/

/-- A Teller account as produced by the accounts fetch and returned by a
successful `SaveTellerAccount`, reduced to the fields the fan-out
payload carries. -/
structure TellerAccount where
  id : String
  tellerInstitutionId : String
  name : String
  transactionsLink : String
  deriving Repr, DecidableEq

/-- The `fetch_transactions` job payload enqueued by
`processTellerSuccess` for one saved account. -/
structure FetchTransactionsJob where
  accountId : String
  userId : Nat
  accessToken : String
  transactionsLink : String
  tellerInstitutionId : String
  deriving Repr, DecidableEq

/-- Builds the `fetch_transactions` payload for a saved account, exactly
as the enqueue loop of `processTellerSuccess` does. -/
def mkFetchTransactionsJob (userId : Nat) (accessToken : String)
    (account : TellerAccount) : FetchTransactionsJob :=
  { accountId := account.id, userId := userId, accessToken := accessToken,
    transactionsLink := account.transactionsLink,
    tellerInstitutionId := account.tellerInstitutionId }

/-- Embeds `processTellerSuccess` (the `new_teller_link` handler) after a
successful accounts fetch: each account is saved through the fallible
`SaveTellerAccount` (the oracle returns the saved account, or `none` on
an error, in which case the account is logged and skipped); one
`fetch_transactions` job is enqueued per saved account; the handler then
returns nil, so the job succeeds regardless of per-account failures. -/
def processTellerSuccess
    (saveAccount : TellerAccount → Option TellerAccount)
    (userId : Nat) (accessToken : String) (accounts : List TellerAccount) :
    List TellerAccount × List FetchTransactionsJob × Option String :=
  let createdAccounts := accounts.filterMap saveAccount
  (createdAccounts,
    createdAccounts.map (mkFetchTransactionsJob userId accessToken),
    none)

/-- The first account of the C8 fan-out scenario. -/
def w8Acc1 : TellerAccount :=
  { id := "acc1", tellerInstitutionId := "inst1", name := "Checking",
    transactionsLink := "https://teller/acc1/transactions" }

/-- The second account of the C8 fan-out scenario. -/
def w8Acc2 : TellerAccount :=
  { id := "acc2", tellerInstitutionId := "inst1", name := "Savings",
    transactionsLink := "https://teller/acc2/transactions" }

/-- C8: the `new_teller_link` job always returns success, enqueues
exactly one `fetch_transactions` job per saved account carrying that
account's id, institution id, the access token and its own transactions
link; in the concrete scenario two accounts that both save yield exactly
the two expected payloads, and when one account's save fails only the
other's job is enqueued while the job still succeeds. -/
theorem teller_link_fanout :
    (∀ (saveAccount : TellerAccount → Option TellerAccount) (userId : Nat)
        (accessToken : String) (accounts : List TellerAccount),
      (processTellerSuccess saveAccount userId accessToken accounts).2.2
          = none ∧
      (processTellerSuccess saveAccount userId accessToken accounts).1
          = accounts.filterMap saveAccount ∧
      (processTellerSuccess saveAccount userId accessToken accounts).2.1
          = (accounts.filterMap saveAccount).map
              (mkFetchTransactionsJob userId accessToken)) ∧
    (processTellerSuccess some 4 "tok" [w8Acc1, w8Acc2]).2.1
      = [{ accountId := "acc1", userId := 4, accessToken := "tok",
           transactionsLink := "https://teller/acc1/transactions",
           tellerInstitutionId := "inst1" },
         { accountId := "acc2", userId := 4, accessToken := "tok",
           transactionsLink := "https://teller/acc2/transactions",
           tellerInstitutionId := "inst1" }] ∧
    (processTellerSuccess
        (fun a => if a.id == "acc2" then none else some a)
        4 "tok" [w8Acc1, w8Acc2]).2.1
      = [{ accountId := "acc1", userId := 4, accessToken := "tok",
           transactionsLink := "https://teller/acc1/transactions",
           tellerInstitutionId := "inst1" }] ∧
    (processTellerSuccess
        (fun a => if a.id == "acc2" then none else some a)
        4 "tok" [w8Acc1, w8Acc2]).2.2 = none := by
  exact ⟨fun saveAccount userId accessToken accounts => ⟨rfl, rfl, rfl⟩,
    by decide, by decide, rfl⟩

/-! ### Daily-balance job error flow (`processDailyBalnce`) — C10 -/

/-- The `monthly_summary` row as touched by the worker (the remaining
columns are owned by the CRUD surface and never read or written here). -/
structure MonthlySummary where
  id : Nat
  userId : Nat
  monthYear : Nat
  totalSpent : ℚ
  deriving Repr, DecidableEq

/-- The persistence-gateway oracle `processDailyBalnce` runs against:
every database call may fail (`none`), as any SQL call can. -/
structure DailyBalanceDeps where
  getMonthlySummary : Option MonthlySummary
  getMonthlyBudgetSpendCategories : Option (List MonthlyBudgetSpendCategory)
  getCategoriesToExcludeRes : Option (List String)
  getTransactionsByCategoryRes :
    MonthlyBudgetSpendCategory → Option (List Transaction)
  getTransactionsExcludingRes :
    MonthlyBudgetSpendCategory → List String → Option (List Transaction)
  updateCategory : MonthlyBudgetSpendCategory → Option Unit
  updateSummaryTotalSpent : MonthlySummary → Option MonthlySummary

/-- Embeds `calculateSpendByCategory` against the oracle: sums the loaded
transactions' amounts, propagating a load failure as an error. -/
def calculateSpendByCategoryM (deps : DailyBalanceDeps)
    (category : MonthlyBudgetSpendCategory) : Except String ℚ :=
  match deps.getTransactionsByCategoryRes category with
  | none => Except.error "failed to get transactions by category"
  | some transactions => Except.ok ((transactions.map (·.amount)).sum)

/-- Embeds `calculateSpendExcludingCategories` against the oracle. -/
def calculateSpendExcludingCategoriesM (deps : DailyBalanceDeps)
    (category : MonthlyBudgetSpendCategory)
    (categoriesToExclude : List String) : Except String ℚ :=
  match deps.getTransactionsExcludingRes category categoriesToExclude with
  | none => Except.error "failed to get transactions by category"
  | some transactions => Except.ok ((transactions.map (·.amount)).sum)

/-- Embeds the first pass of `processDailyBalnce` with fallible
per-category transaction loads: any load failure aborts the job. -/
def firstPassM (deps : DailyBalanceDeps)
    (categoriesToExclude : List String) (daysIntoMonth : Nat) :
    List MonthlyBudgetSpendCategory →
      Except String (List CategoryWithAllowance)
  | [] => Except.ok []
  | category :: rest =>
    match (if category.category = "general" then
        calculateSpendExcludingCategoriesM deps category categoriesToExclude
      else
        calculateSpendByCategoryM deps category) with
    | Except.error e => Except.error e
    | Except.ok totalSpent =>
      match firstPassM deps categoriesToExclude daysIntoMonth rest with
      | Except.error e => Except.error e
      | Except.ok rest2 =>
        let dailyLeftToSpend :=
          calculateDailyLeftToSpend totalSpent category.budget daysIntoMonth
        Except.ok
          ({ category := { category with totalSpent := totalSpent }
             dailyAllowance := dailyLeftToSpend
             isNegative := decide (dailyLeftToSpend < 0) } :: rest2)

/-- Embeds `processDailyBalnce` end to end against the oracle: load the
summary, the budget rows and the exclusion list (each failure aborts),
run the first pass (any spend-load failure aborts), redistribute, then
write each category's final values — the source discards
`database.UpdateMonthlyBudgetSpendCategory`'s return value, embodied by
the discarded `let` below — and finally update the summary's total
(whose failure does abort). -/
def processDailyBalnceM (deps : DailyBalanceDeps) (daysIntoMonth : Nat) :
    Except String MonthlySummary :=
  match deps.getMonthlySummary with
  | none => Except.error "failed to get monthly summary"
  | some monthlySummary =>
    match deps.getMonthlyBudgetSpendCategories with
    | none => Except.error "failed to get monthly budget spend categories"
    | some monthlyBudgetSpendCategories =>
      match deps.getCategoriesToExcludeRes with
      | none => Except.error "failed to get categories to exclude"
      | some categoriesToExclude =>
        match firstPassM deps categoriesToExclude daysIntoMonth
            monthlyBudgetSpendCategories with
        | Except.error e => Except.error e
        | Except.ok categoriesWithAllowances =>
          let overallTotal :=
            (categoriesWithAllowances.map (·.category.totalSpent)).sum
          let finalCategories :=
            redistributeAllowances categoriesWithAllowances
          let _ := finalCategories.map (fun c =>
            deps.updateCategory
              { c.category with dailyAllowance := c.dailyAllowance })
          match deps.updateSummaryTotalSpent
              { monthlySummary with totalSpent := overallTotal } with
          | none => Except.error "failed to update monthly summary"
          | some updated => Except.ok updated

/-- When every per-category transaction load succeeds, the first pass
succeeds. -/
theorem firstPassM_isOk (deps : DailyBalanceDeps)
    (categoriesToExclude : List String) (daysIntoMonth : Nat)
    (h4 : ∀ c, (deps.getTransactionsByCategoryRes c).isSome)
    (h5 : ∀ c ex, (deps.getTransactionsExcludingRes c ex).isSome) :
    ∀ rows : List MonthlyBudgetSpendCategory,
      ∃ cats, firstPassM deps categoriesToExclude daysIntoMonth rows
        = Except.ok cats := by
  intro rows
  induction rows with
  | nil => exact ⟨[], rfl⟩
  | cons category rest ih =>
    obtain ⟨cats, hcats⟩ := ih
    unfold firstPassM
    by_cases hgen : category.category = "general"
    · obtain ⟨txs, htxs⟩ := Option.isSome_iff_exists.mp
        (h5 category categoriesToExclude)
      rw [if_pos hgen]
      unfold calculateSpendExcludingCategoriesM
      rw [htxs, hcats]
      exact ⟨_, rfl⟩
    · obtain ⟨txs, htxs⟩ := Option.isSome_iff_exists.mp (h4 category)
      rw [if_neg hgen]
      unfold calculateSpendByCategoryM
      rw [htxs, hcats]
      exact ⟨_, rfl⟩

/-- The first pass never consults the per-category update operation. -/
theorem firstPassM_updateCategory_irrelevant (deps : DailyBalanceDeps)
    (u : MonthlyBudgetSpendCategory → Option Unit)
    (categoriesToExclude : List String) (daysIntoMonth : Nat) :
    ∀ rows, firstPassM { deps with updateCategory := u }
        categoriesToExclude daysIntoMonth rows
      = firstPassM deps categoriesToExclude daysIntoMonth rows := by
  intro rows
  induction rows with
  | nil => rfl
  | cons category rest ih =>
    unfold firstPassM
    rw [ih]
    rfl

/-- C10: the daily-balance job's outcome never depends on the results of
the per-category `UpdateMonthlyBudgetSpendCategory` calls (their errors
are discarded), and whenever the initial loads, the per-category
transaction loads and the final summary update succeed the job succeeds
— only those failures can make it return an error. -/
theorem daily_balance_ignores_category_update_errors
    (deps : DailyBalanceDeps) (daysIntoMonth : Nat)
    (h1 : deps.getMonthlySummary.isSome)
    (h2 : deps.getMonthlyBudgetSpendCategories.isSome)
    (h3 : deps.getCategoriesToExcludeRes.isSome)
    (h4 : ∀ c, (deps.getTransactionsByCategoryRes c).isSome)
    (h5 : ∀ c ex, (deps.getTransactionsExcludingRes c ex).isSome)
    (h6 : ∀ s, (deps.updateSummaryTotalSpent s).isSome) :
    (processDailyBalnceM deps daysIntoMonth).isOk = true ∧
    ∀ u, processDailyBalnceM
        { deps with updateCategory := u } daysIntoMonth
      = processDailyBalnceM deps daysIntoMonth := by
  constructor
  · obtain ⟨ms, hms⟩ := Option.isSome_iff_exists.mp h1
    obtain ⟨rows, hrows⟩ := Option.isSome_iff_exists.mp h2
    obtain ⟨ex, hex⟩ := Option.isSome_iff_exists.mp h3
    obtain ⟨cats, hcats⟩ :=
      firstPassM_isOk deps ex daysIntoMonth h4 h5 rows
    have hfinal : ∀ s : MonthlySummary,
        (match deps.updateSummaryTotalSpent s with
          | none =>
            (Except.error "failed to update monthly summary" :
              Except String MonthlySummary)
          | some updated => Except.ok updated).isOk = true := by
      intro s
      obtain ⟨updated, hupd⟩ := Option.isSome_iff_exists.mp (h6 s)
      rw [hupd]
      rfl
    unfold processDailyBalnceM
    rw [hms, hrows, hex]
    simp only [hcats]
    exact hfinal _
  · intro u
    unfold processDailyBalnceM
    simp only [firstPassM_updateCategory_irrelevant]

/-- The all-loads-succeed, all-category-writes-fail oracle of the C10
witness. -/
def w10Deps : DailyBalanceDeps :=
  { getMonthlySummary :=
      some { id := 1, userId := 1, monthYear := 72025, totalSpent := 0 }
    getMonthlyBudgetSpendCategories := some [w1General, w1Dining]
    getCategoriesToExcludeRes := some ["dining"]
    getTransactionsByCategoryRes := fun _ => some [w1Txn]
    getTransactionsExcludingRes := fun _ _ => some [w1Txn2]
    updateCategory := fun _ => none
    updateSummaryTotalSpent := fun s => some s }

/-- Witness for `daily_balance_ignores_category_update_errors`: with an
oracle whose every per-category write fails but whose loads and summary
update succeed, the job still succeeds. -/
theorem daily_balance_ignores_category_update_errors_witness :
    w10Deps.getMonthlySummary.isSome = true ∧
    w10Deps.getMonthlyBudgetSpendCategories.isSome = true ∧
    w10Deps.getCategoriesToExcludeRes.isSome = true ∧
    (∀ c, (w10Deps.getTransactionsByCategoryRes c).isSome) ∧
    (∀ c ex, (w10Deps.getTransactionsExcludingRes c ex).isSome) ∧
    (∀ s, (w10Deps.updateSummaryTotalSpent s).isSome) ∧
    ((processDailyBalnceM w10Deps 10).isOk = true ∧
     ∀ u, processDailyBalnceM
         { w10Deps with updateCategory := u } 10
       = processDailyBalnceM w10Deps 10) :=
  ⟨rfl, rfl, rfl, fun c => rfl, fun c ex => rfl, fun s => rfl,
    daily_balance_ignores_category_update_errors w10Deps 10
      rfl rfl rfl (fun c => rfl) (fun c ex => rfl) (fun s => rfl)⟩

end Watson
